import Mathlib

/-!
Verification development for the anisotropy-data utility module `flan.py`.

The module's functions are shallowly embedded here:
  * a text file is a `List String` of its lines; numeric values are modelled
    exactly as rationals (`ℚ`), numeric failure as `Option`/explicit error codes;
  * `np.loadtxt(fname, skiprows=2)` is `loadtxt`;
  * `np.mean` / `np.std` (population standard deviation, divisor N) are
    `npMean` / `npStd`;
  * `np.polyfit` / `np.poly1d` are `polyfitFun`-`polyfit` / `poly1d`, with the
    least-squares coefficients obtained from the normal equations by Cramer's
    rule (exact for full-rank inputs);
  * `an_timepoint`, `an_timepoints`, `generate_fit` and `multiplot` follow the
    Python source line by line; `multiplot` additionally records the files it
    reads and the series it draws, so that ordering properties (the assertion
    firing before any I/O, the palette index used per series, the value
    returned to the caller) are observable.
-/

namespace Flan

/-- Is this character a whitespace separator (numpy's default delimiter)? -/
def isWs (c : Char) : Bool := c = ' ' || c = '\t' || c = '\r'

/-- Split a list of characters into maximal whitespace-free tokens;
`acc` is the current token, reversed. -/
def splitWsAux : List Char → List Char → List (List Char)
  | [], acc => if acc.isEmpty then [] else [acc.reverse]
  | c :: cs, acc =>
    if isWs c then
      if acc.isEmpty then splitWsAux cs [] else acc.reverse :: splitWsAux cs []
    else splitWsAux cs (c :: acc)

def splitWs (cs : List Char) : List (List Char) := splitWsAux cs []

/-- Numeric value of a string of decimal digits. -/
def digitsVal (l : List Char) : ℕ := l.foldl (fun a c => a * 10 + (c.toNat - 48)) 0

def allDigits (l : List Char) : Bool := l.all Char.isDigit

/-- Parse an unsigned decimal literal: digits with an optional fractional part. -/
def parseUnsigned (cs : List Char) : Option ℚ :=
  let ip := cs.takeWhile (fun c => c != '.')
  let rest := cs.dropWhile (fun c => c != '.')
  match rest with
  | [] => if !ip.isEmpty && allDigits ip then some (digitsVal ip) else none
  | _ :: fp =>
    if (!ip.isEmpty || !fp.isEmpty) && allDigits ip && allDigits fp then
      some ((digitsVal ip : ℚ) + (digitsVal fp : ℚ) / 10 ^ fp.length)
    else none

/-- Parse a possibly signed decimal literal. -/
def parseTok : List Char → Option ℚ
  | [] => none
  | c :: rest =>
    if c = '-' then (parseUnsigned rest).map (fun q => -q)
    else if c = '+' then parseUnsigned rest
    else parseUnsigned (c :: rest)

/-- Map a fallible function over a list, failing when any element fails. -/
def mapOpt {α β : Type} (f : α → Option β) : List α → Option (List β)
  | [] => some []
  | a :: l =>
    match f a, mapOpt f l with
    | some b, some l' => some (b :: l')
    | _, _ => none

/-- Parse one line of a data file into its numeric fields. -/
def parseLine (s : String) : Option (List ℚ) := mapOpt parseTok (splitWs s.toList)

/-- Do all rows have the same number of fields as the first row? -/
def rectangular : List (List ℚ) → Bool
  | [] => true
  | r :: rs => rs.all (fun q => q.length = r.length)

/-- Model of `np.loadtxt(fname, skiprows=2)`: discard the first two lines
unconditionally, skip blank lines, parse every remaining line as a row of
numbers, and require the rows to be rectangular. -/
def loadtxt (lines : List String) : Option (List (List ℚ)) :=
  match mapOpt parseLine ((lines.drop 2).filter (fun s => !(splitWs s.toList).isEmpty)) with
  | none => none
  | some rows => if rectangular rows then some rows else none

/-- Column `j` of a parsed table: model of `data[:, j]`, failing (as numpy
does with an index error) when some row is too short. -/
def getCol (m : List (List ℚ)) (j : ℕ) : Option (List ℚ) := mapOpt (fun r => r.get? j) m

/-- Model of `np.mean` on a 1-D array. -/
def npMean (v : List ℚ) : ℚ := v.sum / v.length

/-- Model of `np.var` with its default `ddof=0`: divisor N, not N-1. -/
def npVar (v : List ℚ) : ℚ := ((v.map (fun t => (t - npMean v) ^ 2)).sum) / v.length

/-- Model of `np.std` with its default `ddof=0`: the population standard
deviation, square root of the divisor-N variance. -/
noncomputable def npStd (v : List ℚ) : ℝ := Real.sqrt ((npVar v : ℚ) : ℝ)

/-- Embedding of `an_timepoint(fname)`: load the table, return the mean and
the (population) standard deviation of column 1. -/
noncomputable def an_timepoint (lines : List String) : Option (ℚ × ℝ) :=
  (loadtxt lines).bind fun data =>
    (getCol data 1).map fun col => (npMean col, npStd col)

/-- Embedding of `an_timepoints(fname)`: load the table, return column 1
unreduced. -/
def an_timepoints (lines : List String) : Option (List ℚ) :=
  (loadtxt lines).bind fun data => getCol data 1

/-- Vandermonde design matrix of the fit: row i is (1, x_i, x_i^2, ..., x_i^p). -/
def vmat (x : List ℚ) (p : ℕ) : Matrix (Fin x.length) (Fin (p + 1)) ℚ :=
  Matrix.of fun i j => (x.get i) ^ (j : ℕ)

/-- The y data as a vector indexed like x (out-of-range entries default to 0;
the claims only use equal-length x and y). -/
def yvec (x y : List ℚ) : Fin x.length → ℚ := fun i => y.getD i 0

/-- Gram matrix of the normal equations, Vᵀ V. -/
def gram (x : List ℚ) (p : ℕ) : Matrix (Fin (p + 1)) (Fin (p + 1)) ℚ :=
  (vmat x p).transpose * vmat x p

/-- Right-hand side of the normal equations, Vᵀ y. -/
def momv (x y : List ℚ) (p : ℕ) : Fin (p + 1) → ℚ :=
  (vmat x p).transpose.mulVec (yvec x y)

/-- Model of `np.polyfit(x, y, p)` as a coefficient vector in ascending
degree order: the least-squares coefficients, obtained from the normal
equations Vᵀ V c = Vᵀ y by Cramer's rule.  Exact for full-rank (nonzero
Gram determinant) inputs, which is the regime the claims exercise. -/
def polyfitFun (x y : List ℚ) (p : ℕ) : Fin (p + 1) → ℚ :=
  if (gram x p).det = 0 then 0
  else ((gram x p).det)⁻¹ • Matrix.cramer (gram x p) (momv x y p)

/-- Model of `np.polyfit(x, y, power)` as numpy returns it: the coefficient
list with the highest-degree coefficient first. -/
def polyfit (x y : List ℚ) (power : ℕ) : List ℚ :=
  (List.ofFn (polyfitFun x y power)).reverse

/-- Model of evaluating `np.poly1d(c)` at `t`: Horner evaluation of a
highest-degree-first coefficient list. -/
def poly1d (c : List ℚ) (t : ℚ) : ℚ := c.foldl (fun acc a => acc * t + a) 0

/-- Embedding of `generate_fit(x, y, power)`:
`np.poly1d(np.polyfit(x, y, power))(x)`. -/
def generate_fit (x y : List ℚ) (power : ℕ) : List ℚ :=
  x.map (poly1d (polyfit x y power))

/-- Value at `t` of the polynomial with ascending coefficient vector `c`. -/
def polyEval {p : ℕ} (c : Fin (p + 1) → ℚ) (t : ℚ) : ℚ :=
  ∑ j, c j * t ^ (j : ℕ)

/-- Residual sum of squares of the degree-p polynomial with coefficients `c`
against the data (x, y): the quantity a least-squares fit minimises. -/
def residualSS (x y : List ℚ) {p : ℕ} (c : Fin (p + 1) → ℚ) : ℚ :=
  ∑ i : Fin x.length, (polyEval c (x.get i) - y.getD i 0) ^ 2

/-- The raw color table of the source, 20 RGB byte triples. -/
def tableau20Raw : List (ℕ × ℕ × ℕ) :=
  [(31, 119, 180), (174, 199, 232), (255, 127, 14), (255, 187, 120),
   (44, 160, 44), (152, 223, 138), (214, 39, 40), (255, 152, 150),
   (148, 103, 189), (197, 176, 213), (140, 86, 75), (196, 156, 148),
   (227, 119, 194), (247, 182, 210), (127, 127, 127), (199, 199, 199),
   (188, 189, 34), (219, 219, 141), (23, 190, 207), (158, 218, 229)]

/-- The palette after the source's normalisation loop: each component
divided by 255. -/
def tableau20 : List (ℚ × ℚ × ℚ) :=
  tableau20Raw.map (fun t => ((t.1 : ℚ) / 255, (t.2.1 : ℚ) / 255, (t.2.2 : ℚ) / 255))

/-- Failure modes of a `multiplot` call, mirroring the Python exceptions:
the explicit `assert`, indexing `files[0]` on an empty list, a missing or
unparsable file, a missing column, misaligned row counts in
`np.column_stack`, and an out-of-range palette index. -/
inductive MErr where
  | assertFail
  | emptyFiles
  | readFail
  | parseFail
  | columnFail
  | stackFail
  | labelFail
  | paletteFail
deriving DecidableEq

/-- A matplotlib figure/axes artifact (only its presence matters here). -/
inductive Figure where
  | fig
deriving DecidableEq

/-- One plotted series: the palette index and color used, the legend label,
the scattered data and the overlaid linear fit. -/
structure SeriesDraw where
  colorIdx : ℕ
  color : ℚ × ℚ × ℚ
  label : String
  xs : List ℚ
  ys : List ℚ
  fitted : List ℚ
deriving DecidableEq

/-- Result of a `multiplot` call: either a propagated exception or the value
the Python function returns to its caller (`none` models Python's implicit
`None`; `some fig` would model `return fig, ax`). -/
inductive MOutcome where
  | failure : MErr → MOutcome
  | success : Option Figure → MOutcome
deriving DecidableEq

/-- Observable trace of a `multiplot` call: files read in order, series
drawn in order, and the outcome. -/
structure MultiRun where
  reads : List String
  drawn : List SeriesDraw
  outcome : MOutcome
deriving DecidableEq

/-- The file system: an association list from path to file lines. -/
def fsRead (fs : List (String × List String)) (name : String) : Option (List String) :=
  match fs.find? (fun q => q.1 == name) with
  | some q => some q.2
  | none => none

/-- Model of `np.column_stack((data, col))` for a row-major table: append one
value to every row, failing when the row counts disagree. -/
def stackCol (data : List (List ℚ)) (col : List ℚ) : Option (List (List ℚ)) :=
  if data.length = col.length then some (List.zipWith (fun r v => r ++ [v]) data col)
  else none

/-- The loop over `files[1:]`: read each file, take its column 1, stack it
onto the table.  Returns the files read (in order) and the table or the
first error. -/
inductive LoadRes where
  | ok : List (List ℚ) → LoadRes
  | err : MErr → LoadRes
deriving DecidableEq

def loadLoop (fs : List (String × List String)) : List String → List (List ℚ) →
    List String × LoadRes
  | [], data => ([], .ok data)
  | f :: rest, data =>
    match fsRead fs f with
    | none => ([f], .err .readFail)
    | some lines =>
      match loadtxt lines with
      | none => ([f], .err .parseFail)
      | some t =>
        match getCol t 1 with
        | none => ([f], .err .columnFail)
        | some col =>
          match stackCol data col with
          | none => ([f], .err .stackFail)
          | some data' =>
            match loadLoop fs rest data' with
            | (rs, res) => (f :: rs, res)

/-- The data-loading phase of `multiplot`: `data = np.loadtxt(files[0])[:, :2]`
followed by the stacking loop over the remaining files. -/
def loadPhase (fs : List (String × List String)) (files : List String) :
    List String × LoadRes :=
  match files with
  | [] => ([], .err .emptyFiles)
  | f0 :: rest =>
    match fsRead fs f0 with
    | none => ([f0], .err .readFail)
    | some lines =>
      match loadtxt lines with
      | none => ([f0], .err .parseFail)
      | some t =>
        match loadLoop fs rest (t.map (fun r => r.take 2)) with
        | (rs, res) => (f0 :: rs, res)

/-- One series drawn in iteration `i` of the plotting loop. -/
def mkDraw (i : ℕ) (c : ℚ × ℚ × ℚ) (lab : String) (xs ys : List ℚ) : SeriesDraw :=
  ⟨i, c, lab, xs, ys, generate_fit xs ys 1⟩

/-- The plotting loop `for i in range(1, len(files)+1)`: iteration `i` scatters
`(data[:, 0], data[:, i])` with label `labels[i-1]` and color `tableau20[i]`,
and overlays the degree-1 fit in the same color.  Arguments are looked up in
the Python evaluation order; the series drawn before the first error are kept. -/
def drawLoop (data : List (List ℚ)) (labels : List String) :
    ℕ → ℕ → List SeriesDraw × Option MErr
  | _, 0 => ([], none)
  | i, k + 1 =>
    match getCol data 0 with
    | none => ([], some .columnFail)
    | some xs =>
      match getCol data i with
      | none => ([], some .columnFail)
      | some ys =>
        match labels.get? (i - 1) with
        | none => ([], some .labelFail)
        | some lab =>
          match tableau20.get? i with
          | none => ([], some .paletteFail)
          | some c =>
            match drawLoop data labels (i + 1) k with
            | (ds, e) => (mkDraw i c lab xs ys :: ds, e)

/-- Embedding of `multiplot(files, labels)`: the assertion, the loading phase,
the plotting loop, and the implicit `return None` of the Python source. -/
def multiplot (fs : List (String × List String)) (files labels : List String) : MultiRun :=
  if files.length ≠ labels.length then ⟨[], [], .failure .assertFail⟩
  else
    match (loadPhase fs files).2 with
    | .err e => ⟨(loadPhase fs files).1, [], .failure e⟩
    | .ok data =>
      match (drawLoop data labels 1 files.length).2 with
      | some e =>
        ⟨(loadPhase fs files).1, (drawLoop data labels 1 files.length).1, .failure e⟩
      | none =>
        ⟨(loadPhase fs files).1, (drawLoop data labels 1 files.length).1, .success none⟩

/-- A well-formed replicate file carrying the five replicate values of the
spec's `an_timepoint` example in column 1. -/
def exReplicateFile : List String :=
  ["Sample replicate header", "time anisotropy",
   "0.0 0.20", "1.0 0.22", "2.0 0.18", "3.0 0.24", "4.0 0.21"]

/-- A two-column file with known content, for the loader example. -/
def exTwoColFile : List String :=
  ["junk header", "units line", "200.0 0.5", "210.5 -0.25"]

/-- A tiny well-formed timecourse file with integer-valued entries. -/
def exIntFile : List String := ["hdr one", "hdr two", "0 1", "1 2"]

/-- A file system holding the tiny timecourse file under the name f. -/
def exFs : List (String × List String) := [("f", exIntFile)]

/-- Twenty copies of the same path: a 20-series `multiplot` call. -/
def ex20Files : List String := List.replicate 20 "f"

def ex20Labels : List String := List.replicate 20 "lab"

/-- Twenty-one copies of the same path: a more-than-20-series call. -/
def ex21Files : List String := List.replicate 21 "f"

def ex21Labels : List String := List.replicate 21 "lab"

/-- The table `multiplot` assembles from twenty copies of `exIntFile`:
column 0 plus twenty copies of column 1. -/
def ex20Data : List (List ℚ) :=
  [0 :: List.replicate 20 1, 1 :: List.replicate 20 2]

/-- The table for the 21-file call. -/
def ex21Data : List (List ℚ) :=
  [0 :: List.replicate 21 1, 1 :: List.replicate 21 2]

/-- The parsed rows of `exReplicateFile`. -/
def exReplicateRows : List (List ℚ) :=
  [[0, 1/5], [1, 11/50], [2, 9/50], [3, 6/25], [4, 21/100]]

/-- Column 1 of `exReplicateRows`: the five replicate values. -/
def exReplicateVals : List ℚ := [1/5, 11/50, 9/50, 6/25, 21/100]

theorem mapOpt_length {α β : Type} (f : α → Option β) :
    ∀ {l : List α} {l' : List β}, mapOpt f l = some l' → l'.length = l.length := by
  intro l
  induction l with
  | nil =>
    intro l' h
    simp only [mapOpt, Option.some.injEq] at h
    subst h
    rfl
  | cons a l ih =>
    intro l' h
    cases hfa : f a with
    | none => rw [mapOpt, hfa] at h; simp at h
    | some b =>
      cases hml : mapOpt f l with
      | none => rw [mapOpt, hfa, hml] at h; simp at h
      | some l'' =>
        rw [mapOpt, hfa, hml] at h
        simp at h
        subst h
        simp [ih hml]

theorem mapOpt_get? {α β : Type} (f : α → Option β) :
    ∀ {l : List α} {l' : List β}, mapOpt f l = some l' →
      ∀ i : ℕ, l'.get? i = (l.get? i).bind f := by
  intro l
  induction l with
  | nil =>
    intro l' h i
    simp only [mapOpt, Option.some.injEq] at h
    subst h
    cases i <;> rfl
  | cons a l ih =>
    intro l' h i
    cases hfa : f a with
    | none => rw [mapOpt, hfa] at h; simp at h
    | some b =>
      cases hml : mapOpt f l with
      | none => rw [mapOpt, hfa, hml] at h; simp at h
      | some l'' =>
        rw [mapOpt, hfa, hml] at h
        simp only [Option.some.injEq] at h
        subst h
        cases i with
        | zero => simp [hfa]
        | succ n => simpa using ih hml n

theorem mapOpt_isSome {α β : Type} (f : α → Option β) :
    ∀ {l : List α}, (∀ a ∈ l, (f a).isSome) → (mapOpt f l).isSome := by
  intro l
  induction l with
  | nil => intro _; rfl
  | cons a l ih =>
    intro h
    have ha := h a (by simp)
    obtain ⟨b, hb⟩ := Option.isSome_iff_exists.mp ha
    have hl := ih (fun a' ha' => h a' (by simp [ha']))
    obtain ⟨l'', hl''⟩ := Option.isSome_iff_exists.mp hl
    rw [mapOpt, hb, hl'']
    rfl

theorem get?_isSome_of_lt {α : Type} (l : List α) {j : ℕ} (h : j < l.length) :
    (l.get? j).isSome := by
  rw [List.get?_eq_getElem?, List.getElem?_eq_getElem h]
  rfl

theorem getCol_isSome (m : List (List ℚ)) (j : ℕ) (h : ∀ r ∈ m, j < r.length) :
    (getCol m j).isSome :=
  mapOpt_isSome _ (fun r hr => get?_isSome_of_lt r (h r hr))

theorem exReplicate_loadtxt : loadtxt exReplicateFile = some exReplicateRows := by
  simp +decide [loadtxt, exReplicateFile, exReplicateRows, parseLine, splitWs, splitWsAux,
    isWs, parseTok, parseUnsigned, allDigits, digitsVal, mapOpt, rectangular]
  norm_num

theorem exReplicate_col : an_timepoints exReplicateFile = some exReplicateVals := by
  rw [an_timepoints, exReplicate_loadtxt]
  simp +decide [getCol, exReplicateRows, exReplicateVals, mapOpt]

/-- C5: the table loader discards exactly the first two lines of every file,
whatever they contain, and parses the remaining lines as numeric rows; on the
concrete two-column file the parsed rows are the literal values present after
the first two lines. -/
theorem loadtxt_skips_two_lines :
    (∀ a b a' b' : String, ∀ rest : List String,
      loadtxt (a :: b :: rest) = loadtxt (a' :: b' :: rest))
    ∧ loadtxt exTwoColFile = some [[200, 1/2], [421/2, -(1/4)]] := by
  constructor
  · intro a b a' b' rest
    rfl
  · simp +decide [loadtxt, exTwoColFile, parseLine, splitWs, splitWsAux, isWs, parseTok,
      parseUnsigned, allDigits, digitsVal, mapOpt, rectangular]
    norm_num

/-- C1: on every file whose column 1 parses to a nonempty value list v,
`an_timepoint` returns the mean of v paired with the population standard
deviation of v, the square root of the divisor-N (not N-1) variance. -/
theorem an_timepoint_mean_popstd (lines : List String) (v : List ℚ)
    (h : an_timepoints lines = some v) (_hv : v ≠ []) :
    an_timepoint lines =
      some (v.sum / v.length,
        Real.sqrt ((((v.map (fun t => (t - v.sum / v.length) ^ 2)).sum / v.length : ℚ) : ℝ))) := by
  rw [an_timepoints] at h
  rw [an_timepoint]
  cases hl : loadtxt lines with
  | none => rw [hl] at h; exact absurd h (by simp)
  | some data =>
    rw [hl] at h
    simp only [Option.some_bind] at h ⊢
    rw [h]
    simp [npMean, npStd, npVar]

/-- C1 witness: the spec's replicate file, with column values
0.20, 0.22, 0.18, 0.24, 0.21; the mean is exactly 0.21 and the population
standard deviation is exactly 0.02. -/
theorem an_timepoint_mean_popstd_witness :
    an_timepoints exReplicateFile = some exReplicateVals
    ∧ exReplicateVals ≠ []
    ∧ an_timepoint exReplicateFile = some (21/100, Real.sqrt ((1/2500 : ℚ) : ℝ))
    ∧ Real.sqrt ((1/2500 : ℚ) : ℝ) = 1/50 := by
  have hne : exReplicateVals ≠ [] := by simp [exReplicateVals]
  have h := an_timepoint_mean_popstd exReplicateFile exReplicateVals exReplicate_col hne
  refine ⟨exReplicate_col, hne, ?_, ?_⟩
  · rw [h]
    norm_num [exReplicateVals]
  · rw [show ((1/2500 : ℚ) : ℝ) = (1/50 : ℝ) ^ 2 by norm_num,
      Real.sqrt_sq (by norm_num)]

/-- C6: on every file whose table loads, `an_timepoints` returns column 1
unmodified and unreduced: one entry per data row, each entry the literal
column-1 value of its row. -/
theorem an_timepoints_column_unreduced (lines : List String) (rows : List (List ℚ))
    (h : loadtxt lines = some rows) (hw : ∀ r ∈ rows, 2 ≤ r.length) :
    ∃ v : List ℚ, an_timepoints lines = some v ∧ v.length = rows.length
      ∧ ∀ i : ℕ, v.get? i = (rows.get? i).bind (fun r => r.get? 1) := by
  have hs : (getCol rows 1).isSome :=
    getCol_isSome rows 1 (fun r hr => lt_of_lt_of_le (by norm_num) (hw r hr))
  obtain ⟨v, hv⟩ := Option.isSome_iff_exists.mp hs
  refine ⟨v, ?_, mapOpt_length _ hv, fun i => mapOpt_get? _ hv i⟩
  rw [an_timepoints, h, Option.some_bind]
  exact hv

/-- C6 witness: the replicate file has five data rows, and `an_timepoints`
returns their five column-1 values. -/
theorem an_timepoints_column_unreduced_witness :
    loadtxt exReplicateFile = some exReplicateRows
    ∧ ∃ v : List ℚ, an_timepoints exReplicateFile = some v ∧ v.length = exReplicateRows.length
        ∧ ∀ i : ℕ, v.get? i = (exReplicateRows.get? i).bind (fun r => r.get? 1) :=
  ⟨exReplicate_loadtxt,
    an_timepoints_column_unreduced exReplicateFile exReplicateRows exReplicate_loadtxt
      (by decide)⟩

/-- C10: the summary and the raw-value operations agree: whenever
`an_timepoints` returns the value list v, `an_timepoint` returns exactly
(mean of v, population standard deviation of v). -/
theorem an_timepoint_agrees_timepoints (lines : List String) (v : List ℚ)
    (h : an_timepoints lines = some v) :
    an_timepoint lines = some (npMean v, npStd v) := by
  rw [an_timepoints] at h
  rw [an_timepoint]
  cases hl : loadtxt lines with
  | none => rw [hl] at h; exact absurd h (by simp)
  | some data =>
    rw [hl] at h
    simp only [Option.some_bind] at h ⊢
    rw [h]
    rfl

/-- C10 witness: agreement at the replicate file. -/
theorem an_timepoint_agrees_timepoints_witness :
    an_timepoints exReplicateFile = some exReplicateVals
    ∧ an_timepoint exReplicateFile = some (npMean exReplicateVals, npStd exReplicateVals) :=
  ⟨exReplicate_col,
    an_timepoint_agrees_timepoints exReplicateFile exReplicateVals exReplicate_col⟩

/-- C2: when `files` and `labels` have different lengths, `multiplot` fails
on its assertion with no file read and no series drawn. -/
theorem multiplot_length_mismatch_asserts (fs : List (String × List String))
    (files labels : List String) (h : files.length ≠ labels.length) :
    multiplot fs files labels = ⟨[], [], .failure .assertFail⟩ := by
  rw [multiplot, if_pos h]

/-- C2 witness: three files against two labels fail the assertion before any
read or plot. -/
theorem multiplot_length_mismatch_asserts_witness :
    multiplot [] ["a", "b", "c"] ["x", "y"] = ⟨[], [], .failure .assertFail⟩ :=
  multiplot_length_mismatch_asserts [] ["a", "b", "c"] ["x", "y"] (by decide)

/-- C8: a valid single-series call runs to completion and draws its series,
but the value `multiplot` hands back to its caller is `none` — the Python
function body never executes a `return`, so no figure/axes value reaches the
caller, contradicting the specified interface `multiplot(...) → plot artifact`. -/
theorem multiplot_returns_none :
    (multiplot exFs ["f"] ["lab"]).outcome = MOutcome.success none
    ∧ (multiplot exFs ["f"] ["lab"]).drawn.length = 1 := by
  constructor <;> decide

theorem tableau20_get?_lt : ∀ i : ℕ, i < 20 → (tableau20.get? i).isSome := by decide

theorem tableau20_get?_20 : tableau20.get? 20 = none := by decide

/-- Series drawn by the plotting loop carry consecutive palette indices
starting at the loop's start index. -/
theorem drawLoop_colorIdx (data : List (List ℚ)) (labels : List String) :
    ∀ (k i : ℕ),
      (drawLoop data labels i k).1.map SeriesDraw.colorIdx
        = List.range' i (drawLoop data labels i k).1.length := by
  intro k
  induction k with
  | zero => intro i; rfl
  | succ k ih =>
    intro i
    rw [drawLoop]
    cases h0 : getCol data 0 with
    | none => simp
    | some xs =>
      cases h1 : getCol data i with
      | none => simp
      | some ys =>
        cases h2 : labels.get? (i - 1) with
        | none => simp
        | some lab =>
          cases h3 : tableau20.get? i with
          | none => simp
          | some c =>
            cases h4 : drawLoop data labels (i + 1) k with
            | mk ds e =>
              have := ih (i + 1)
              rw [h4] at this
              simp only [List.map_cons, List.length_cons, mkDraw, this, List.range'_succ]

/-- When the plotting loop runs from index i ≤ 20 past index 20 over a table
wide enough for the column lookups and a label list long enough for the label
lookups, it stops with a palette index error (the lookup `tableau20[20]`). -/
theorem drawLoop_paletteFail (data : List (List ℚ)) (labels : List String)
    (hc : ∀ j : ℕ, j ≤ 20 → (getCol data j).isSome)
    (hl : ∀ j : ℕ, j < 20 → (labels.get? j).isSome) :
    ∀ (k i : ℕ), 1 ≤ i → i ≤ 20 → 20 < i + k →
      (drawLoop data labels i k).2 = some MErr.paletteFail := by
  intro k
  induction k with
  | zero => intro i h1 h2 h3; omega
  | succ k ih =>
    intro i h1 h2 h3
    obtain ⟨xs, hxs⟩ := Option.isSome_iff_exists.mp (hc 0 (by omega))
    obtain ⟨ys, hys⟩ := Option.isSome_iff_exists.mp (hc i h2)
    obtain ⟨lab, hlab⟩ := Option.isSome_iff_exists.mp (hl (i - 1) (by omega))
    rw [drawLoop, hxs, hys, hlab]
    rcases Nat.lt_or_ge i 20 with hi | hi
    · obtain ⟨c, hcc⟩ := Option.isSome_iff_exists.mp (tableau20_get?_lt i hi)
      rw [hcc]
      cases h4 : drawLoop data labels (i + 1) k with
      | mk ds e =>
        have := ih (i + 1) (by omega) (by omega) (by omega)
        rw [h4] at this
        simpa using this
    · have hi20 : i = 20 := by omega
      subst hi20
      rw [tableau20_get?_20]

/-- C9: the plotting loop is 1-based in the palette: the j-th drawn series
(0-based position j) uses palette entry j+1, so entry 0 is never used; and a
call with exactly 20 well-formed files reaches the lookup `tableau20[20]` in
the 20-entry palette and fails with the palette index error. -/
theorem multiplot_palette_one_based :
    tableau20.length = 20
    ∧ (∀ (fs : List (String × List String)) (files labels : List String),
        (multiplot fs files labels).drawn.map SeriesDraw.colorIdx
          = List.range' 1 (multiplot fs files labels).drawn.length)
    ∧ (∀ (fs : List (String × List String)) (files labels : List String)
        (data : List (List ℚ)),
        files.length = 20 → labels.length = 20 →
        (loadPhase fs files).2 = LoadRes.ok data →
        (∀ r ∈ data, 21 ≤ r.length) →
        (multiplot fs files labels).outcome = MOutcome.failure MErr.paletteFail) := by
  refine ⟨by decide, ?_, ?_⟩
  · intro fs files labels
    rw [multiplot]
    by_cases h : files.length ≠ labels.length
    · rw [if_pos h]
      rfl
    · rw [if_neg h]
      split
      · rfl
      · split
        · exact drawLoop_colorIdx _ labels files.length 1
        · exact drawLoop_colorIdx _ labels files.length 1
  · intro fs files labels data h1 h2 h3 h4
    have hc : ∀ j : ℕ, j ≤ 20 → (getCol data j).isSome := fun j hj =>
      getCol_isSome data j (fun r hr => by have := h4 r hr; omega)
    have hl : ∀ j : ℕ, j < 20 → (labels.get? j).isSome := fun j hj =>
      get?_isSome_of_lt labels (by omega)
    have he : (drawLoop data labels 1 files.length).2 = some MErr.paletteFail :=
      drawLoop_paletteFail data labels hc hl files.length 1
        (by omega) (by omega) (by omega)
    rw [multiplot, if_neg (by omega)]
    simp only [h3, he]

/-- C9 witness: a 20-series call over a well-formed file system fails with
the palette error, and a 1-series call draws with palette entry 1. -/
theorem multiplot_palette_one_based_witness :
    (multiplot exFs ex20Files ex20Labels).outcome = MOutcome.failure MErr.paletteFail
    ∧ (multiplot exFs ["f"] ["lab"]).drawn.map SeriesDraw.colorIdx = [1] := by
  constructor
  · exact multiplot_palette_one_based.2.2 exFs ex20Files ex20Labels ex20Data
      (by decide) (by decide) (by decide) (by decide)
  · have h := multiplot_palette_one_based.2.1 exFs ["f"] ["lab"]
    rw [h]
    decide

/-- C7 counterexample: with 21 series (more than 20), the palette lookup is
`tableau20[20]`, which is out of range, and the call fails on account of the
palette — it does not cycle to entry 21 mod 20 = 1. -/
theorem multiplot_palette_cycling_cex :
    ex21Files.length = 21
    ∧ (multiplot exFs ex21Files ex21Labels).outcome = MOutcome.failure MErr.paletteFail := by
  constructor <;> decide

/-- C7 (amended): with more than 20 well-formed series, `multiplot` does not
cycle the palette: the lookup at index 20 is out of range and the call fails
with the palette index error (for fewer series, series i uses entry i, see
the 1-based indexing theorem). -/
theorem multiplot_palette_overflow_fails (fs : List (String × List String))
    (files labels : List String) (data : List (List ℚ))
    (h0 : files.length = labels.length) (h1 : 20 < files.length)
    (h2 : (loadPhase fs files).2 = LoadRes.ok data)
    (h3 : ∀ r ∈ data, files.length + 1 ≤ r.length) :
    (multiplot fs files labels).outcome = MOutcome.failure MErr.paletteFail := by
  have hc : ∀ j : ℕ, j ≤ 20 → (getCol data j).isSome := fun j hj =>
    getCol_isSome data j (fun r hr => by have := h3 r hr; omega)
  have hl : ∀ j : ℕ, j < 20 → (labels.get? j).isSome := fun j hj =>
    get?_isSome_of_lt labels (by omega)
  have he : (drawLoop data labels 1 files.length).2 = some MErr.paletteFail :=
    drawLoop_paletteFail data labels hc hl files.length 1
      (by omega) (by omega) (by omega)
  rw [multiplot, if_neg (by omega)]
  simp only [h2, he]

/-- C7 witness (amended claim): the 21-series call fails with the palette
index error. -/
theorem multiplot_palette_overflow_fails_witness :
    (multiplot exFs ex21Files ex21Labels).outcome = MOutcome.failure MErr.paletteFail :=
  multiplot_palette_overflow_fails exFs ex21Files ex21Labels ex21Data
    (by decide) (by decide) (by decide) (by decide)

theorem foldr_ofFn_eval (t : ℚ) :
    ∀ {n : ℕ} (c : Fin n → ℚ),
      (List.ofFn c).foldr (fun a acc => acc * t + a) 0 = ∑ j, c j * t ^ (j : ℕ) := by
  intro n
  induction n with
  | zero => intro c; simp
  | succ n ih =>
    intro c
    rw [List.ofFn_succ, List.foldr_cons, ih, Fin.sum_univ_succ]
    simp only [Fin.val_zero, pow_zero, mul_one, Fin.val_succ, pow_succ, Finset.sum_mul,
      mul_assoc]
    ring

/-- Evaluating numpy's highest-degree-first coefficient list by Horner's rule
agrees with the ascending-power polynomial value. -/
theorem poly1d_polyfit (x y : List ℚ) (p : ℕ) (t : ℚ) :
    poly1d (polyfit x y p) t = polyEval (polyfitFun x y p) t := by
  rw [poly1d, polyfit, List.foldl_reverse, polyEval]
  exact foldr_ofFn_eval t (polyfitFun x y p)

/-- A solution of the normal equations minimises the residual sum of squares:
the quadratic expansion around the solution has vanishing cross term. -/
theorem lsq_min {n m : ℕ} (V : Matrix (Fin n) (Fin m) ℚ) (yv : Fin n → ℚ)
    (b c : Fin m → ℚ) (h : (V.transpose * V).mulVec b = V.transpose.mulVec yv) :
    ∑ i, (V.mulVec b i - yv i) ^ 2 ≤ ∑ i, (V.mulVec c i - yv i) ^ 2 := by
  have hVg : ∀ i, V.mulVec c i - yv i
      = V.mulVec (c - b) i + (V.mulVec b i - yv i) := by
    intro i
    have h2 : V.mulVec (c - b) = V.mulVec c - V.mulVec b := Matrix.mulVec_sub V c b
    rw [h2]
    simp [Pi.sub_apply]
  have hVtr : V.transpose.mulVec (V.mulVec b - yv) = 0 := by
    rw [Matrix.mulVec_sub, Matrix.mulVec_mulVec, h, sub_self]
  have hcross : (∑ i, V.mulVec (c - b) i * (V.mulVec b i - yv i)) = 0 := by
    have h1 : (∑ i, V.mulVec (c - b) i * (V.mulVec b i - yv i))
        = Matrix.dotProduct (V.mulVec (c - b)) (V.mulVec b - yv) := by
      simp [Matrix.dotProduct, Pi.sub_apply]
    rw [h1, Matrix.dotProduct_comm, Matrix.dotProduct_mulVec, ← Matrix.mulVec_transpose,
      hVtr, Matrix.zero_dotProduct]
  have hexp : ∑ i, (V.mulVec c i - yv i) ^ 2
      = (∑ i, (V.mulVec (c - b) i) ^ 2) + ∑ i, (V.mulVec b i - yv i) ^ 2 := by
    calc ∑ i, (V.mulVec c i - yv i) ^ 2
        = ∑ i, ((V.mulVec (c - b) i) ^ 2
            + 2 * (V.mulVec (c - b) i * (V.mulVec b i - yv i))
            + (V.mulVec b i - yv i) ^ 2) :=
          Finset.sum_congr rfl (fun i _ => by rw [hVg i]; ring)
      _ = (∑ i, (V.mulVec (c - b) i) ^ 2)
            + 2 * (∑ i, V.mulVec (c - b) i * (V.mulVec b i - yv i))
            + ∑ i, (V.mulVec b i - yv i) ^ 2 := by
          rw [Finset.sum_add_distrib, Finset.sum_add_distrib, Finset.mul_sum]
      _ = (∑ i, (V.mulVec (c - b) i) ^ 2) + ∑ i, (V.mulVec b i - yv i) ^ 2 := by
          rw [hcross, mul_zero, add_zero]
  rw [hexp]
  exact le_add_of_nonneg_left (Finset.sum_nonneg (fun i _ => sq_nonneg _))

/-- For a nonzero Gram determinant, the Cramer-rule coefficients solve the
normal equations. -/
theorem polyfitFun_normal (x y : List ℚ) (p : ℕ) (hdet : (gram x p).det ≠ 0) :
    (gram x p).mulVec (polyfitFun x y p) = momv x y p := by
  rw [polyfitFun, if_neg hdet, Matrix.mulVec_smul, Matrix.mulVec_cramer,
    smul_smul, inv_mul_cancel₀ hdet, one_smul]

theorem mulVec_vmat_eq (x : List ℚ) (p : ℕ) (c : Fin (p + 1) → ℚ) (i : Fin x.length) :
    (vmat x p).mulVec c i = polyEval c (x.get i) := by
  simp [vmat, Matrix.mulVec, Matrix.dotProduct, polyEval, mul_comm]

theorem residualSS_eq (x y : List ℚ) (p : ℕ) (c : Fin (p + 1) → ℚ) :
    residualSS x y c = ∑ i, ((vmat x p).mulVec c i - yvec x y i) ^ 2 := by
  rw [residualSS]
  exact Finset.sum_congr rfl (fun i _ => by rw [mulVec_vmat_eq, yvec])

/-- For a nonzero Gram determinant, the modelled `np.polyfit` coefficients
minimise the residual sum of squares over all degree-p coefficient vectors. -/
theorem polyfitFun_min (x y : List ℚ) (p : ℕ) (hdet : (gram x p).det ≠ 0)
    (c : Fin (p + 1) → ℚ) :
    residualSS x y (polyfitFun x y p) ≤ residualSS x y c := by
  rw [residualSS_eq x y p, residualSS_eq x y p]
  exact lsq_min (vmat x p) (yvec x y) (polyfitFun x y p) c (polyfitFun_normal x y p hdet)

theorem gram_ex : gram [0, 1, 2, 3] 1 = !![4, 6; 6, 14] := by
  ext i j
  fin_cases i <;> fin_cases j <;>
    simp [gram, vmat, Matrix.mul_apply, Matrix.transpose_apply, Fin.sum_univ_four] <;>
    norm_num [show ((3 : Fin 4) : ℕ) = 3 from rfl]

theorem gram_ex_det : (gram [0, 1, 2, 3] 1).det = 20 := by
  rw [gram_ex, Matrix.det_fin_two_of]
  norm_num

theorem momv_ex : momv [0, 1, 2, 3] [1, 3, 5, 7] 1 = ![16, 34] := by
  funext j
  fin_cases j <;>
    simp [momv, vmat, yvec, Matrix.mulVec, Matrix.dotProduct, Matrix.transpose_apply,
      Fin.sum_univ_four] <;>
    norm_num [show ((3 : Fin 4) : ℕ) = 3 from rfl]

theorem cramer_ex :
    Matrix.cramer (gram [0, 1, 2, 3] 1) (momv [0, 1, 2, 3] [1, 3, 5, 7] 1) = ![20, 40] := by
  rw [gram_ex, momv_ex]
  funext j
  rw [Matrix.cramer_apply]
  fin_cases j <;>
  · rw [Matrix.det_fin_two]
    simp [Matrix.updateColumn_apply]
    norm_num

theorem polyfitFun_ex : polyfitFun [0, 1, 2, 3] [1, 3, 5, 7] 1 = ![1, 2] := by
  funext j
  rw [polyfitFun, if_neg (by rw [gram_ex_det]; norm_num), gram_ex_det, cramer_ex]
  fin_cases j <;>
    norm_num [Pi.smul_apply, Matrix.cons_val_zero, Matrix.cons_val_one, Matrix.head_cons,
      smul_eq_mul]

theorem polyfit_ex : polyfit [0, 1, 2, 3] [1, 3, 5, 7] 1 = [2, 1] := by
  rw [polyfit, polyfitFun_ex]
  decide

/-- C3: on the perfectly linear data x = [0,1,2,3], y = [1,3,5,7], the
degree-1 fit is the exact line y = 2x + 1 (coefficients highest-degree first:
[2, 1]), and `generate_fit` returns its values at each input x: [1,3,5,7]. -/
theorem generate_fit_linear_exact :
    generate_fit [0, 1, 2, 3] [1, 3, 5, 7] 1 = [1, 3, 5, 7]
    ∧ polyfit [0, 1, 2, 3] [1, 3, 5, 7] 1 = [2, 1] := by
  refine ⟨?_, polyfit_ex⟩
  rw [generate_fit, polyfit_ex]
  norm_num [poly1d]

/-- C4: for equal-length x and y and a nondegenerate (full-rank) design, the
value `generate_fit` returns has exactly one entry per input x value, entry i
being the degree-power least-squares polynomial — the coefficient vector
minimising the residual sum of squares — evaluated at x_i itself (no finer
grid, no extrapolation). -/
theorem generate_fit_least_squares_aligned (x y : List ℚ) (p : ℕ)
    (_hlen : x.length = y.length) (hdet : (gram x p).det ≠ 0) :
    (generate_fit x y p).length = x.length
    ∧ (∀ i : ℕ, (generate_fit x y p).get? i
        = (x.get? i).map (polyEval (polyfitFun x y p)))
    ∧ ∀ c : Fin (p + 1) → ℚ, residualSS x y (polyfitFun x y p) ≤ residualSS x y c := by
  refine ⟨by simp [generate_fit], fun i => ?_, fun c => polyfitFun_min x y p hdet c⟩
  rw [generate_fit, List.get?_eq_getElem?, List.getElem?_map, ← List.get?_eq_getElem?]
  cases x.get? i with
  | none => rfl
  | some t => simp [poly1d_polyfit]

/-- C4 witness: the linear example is full-rank; the fitted list has length 4,
its entry 2 is the fit polynomial evaluated at x = 2, and the fit's residual
sum of squares is no larger than that of the zero polynomial. -/
theorem generate_fit_least_squares_aligned_witness :
    (generate_fit [0, 1, 2, 3] [1, 3, 5, 7] 1).length = 4
    ∧ (generate_fit [0, 1, 2, 3] [1, 3, 5, 7] 1).get? 2
        = some (polyEval (polyfitFun [0, 1, 2, 3] [1, 3, 5, 7] 1) 2)
    ∧ residualSS [0, 1, 2, 3] [1, 3, 5, 7] (polyfitFun [0, 1, 2, 3] [1, 3, 5, 7] 1)
        ≤ residualSS [0, 1, 2, 3] [1, 3, 5, 7] ![0, 0] := by
  have h := generate_fit_least_squares_aligned [0, 1, 2, 3] [1, 3, 5, 7] 1 rfl
    (by rw [gram_ex_det]; norm_num)
  refine ⟨h.1, ?_, h.2.2 ![0, 0]⟩
  rw [h.2.1 2]
  rfl

end Flan
